import Mathlib

/-!
Verification development for the GoldMSSTracker market-structure tracker.
The Python source (src/GoldMSSTracker.py) is embedded shallowly:
numpy float semantics are modelled by an extended value type FVal
(finite rationals, signed infinities, NaN) because the detector relies
on IEEE behaviour (comparisons with NaN are false, division of a
nonzero value by zero yields a signed infinity, numpy max/min/mean
propagate NaN), and numpy raises no exception for any of these.
Finite arithmetic is modelled exactly over the rationals.
-/

namespace GoldMSS

/-- Extended float values: finite rational, signed infinity (pos = true
for positive infinity), or NaN. -/
inductive FVal where
  | fin (q : ℚ)
  | inf (pos : Bool)
  | nan
deriving DecidableEq, Repr

/-- IEEE addition on extended values. -/
def FVal.add : FVal → FVal → FVal
  | .nan, _ => .nan
  | _, .nan => .nan
  | .inf p, .inf q => if p = q then .inf p else .nan
  | .inf p, .fin _ => .inf p
  | .fin _, .inf q => .inf q
  | .fin a, .fin b => .fin (a + b)

/-- IEEE subtraction on extended values. -/
def FVal.sub : FVal → FVal → FVal
  | .nan, _ => .nan
  | _, .nan => .nan
  | .inf p, .inf q => if p = q then .nan else .inf p
  | .inf p, .fin _ => .inf p
  | .fin _, .inf q => .inf (!q)
  | .fin a, .fin b => .fin (a - b)

/-- IEEE absolute value. -/
def FVal.fabs : FVal → FVal
  | .fin a => .fin (if a < 0 then -a else a)
  | .inf _ => .inf true
  | .nan => .nan

/-- IEEE division.  A nonzero finite value divided by zero yields a
signed infinity (the denominator zero here is positive zero, the only
zero in this model); zero by zero yields NaN.  numpy emits a warning in
these cases but raises no exception. -/
def FVal.div : FVal → FVal → FVal
  | .nan, _ => .nan
  | _, .nan => .nan
  | .inf _, .inf _ => .nan
  | .inf p, .fin b => .inf (p == decide (0 ≤ b))
  | .fin _, .inf _ => .fin 0
  | .fin a, .fin b =>
      if b = 0 then (if a = 0 then .nan else .inf (decide (0 < a)))
      else .fin (a / b)

/-- IEEE greater-than: any comparison involving NaN is false. -/
def FVal.gt : FVal → FVal → Bool
  | .nan, _ => false
  | _, .nan => false
  | .inf p, .inf q => p && !q
  | .inf p, .fin _ => p
  | .fin _, .inf q => !q
  | .fin a, .fin b => decide (b < a)

/-- IEEE less-than, via gt with arguments swapped. -/
def FVal.lt (a b : FVal) : Bool := FVal.gt b a

/-- Pairwise maximum as used by numpy max: NaN propagates. -/
def FVal.fmax : FVal → FVal → FVal
  | .nan, _ => .nan
  | _, .nan => .nan
  | .inf true, _ => .inf true
  | _, .inf true => .inf true
  | .inf false, b => b
  | a, .inf false => a
  | .fin a, .fin b => .fin (max a b)

/-- Pairwise minimum as used by numpy min: NaN propagates. -/
def FVal.fmin : FVal → FVal → FVal
  | .nan, _ => .nan
  | _, .nan => .nan
  | .inf false, _ => .inf false
  | _, .inf false => .inf false
  | .inf true, b => b
  | a, .inf true => a
  | .fin a, .fin b => .fin (min a b)

/-- numpy max over an array (never called on an empty array by the
detector, which guarantees at least 9 elements). -/
def npMax : List FVal → FVal
  | [] => .nan
  | x :: xs => xs.foldl FVal.fmax x

/-- numpy min over an array. -/
def npMin : List FVal → FVal
  | [] => .nan
  | x :: xs => xs.foldl FVal.fmin x

/-- Sum of an array of extended values. -/
def fsum (l : List FVal) : FVal := l.foldl FVal.add (.fin 0)

/-- numpy mean: sum divided by length. -/
def npMean (l : List FVal) : FVal := (fsum l).div (.fin (l.length : ℚ))

/-- One OHLC bar; the detector reads only high, low, close. -/
structure Bar where
  high : FVal
  low : FVal
  close : FVal
deriving DecidableEq, Repr

/-- The verdict dictionary returned by detect_market_structure_shift. -/
structure ShiftVerdict where
  higher_high : Bool
  lower_low : Bool
  trend_change : Bool
  current_price : FVal
  ma_short : FVal
  ma_long : FVal
deriving DecidableEq, Repr

/-- The close column of the data frame, closes = data.Close.values. -/
def closes_of (data : List Bar) : List FVal := data.map Bar.close

/-- ma_short = np.mean of closes with Python slice minus-5-to-end. -/
def ma_short_of (data : List Bar) : FVal :=
  npMean ((closes_of data).drop ((closes_of data).length - 5))

/-- ma_long = np.mean of closes with Python slice minus-10-to-end. -/
def ma_long_of (data : List Bar) : FVal :=
  npMean ((closes_of data).drop ((closes_of data).length - 10))

/-- detect_market_structure_shift, lines 103-131 of the source.  Fewer
than 10 bars returns None.  Otherwise the verdict dictionary is built;
none of the numpy operations involved can raise for the inputs modelled
here, so the except branch at line 129 is unreachable and the function
is total on series of length at least 10. -/
def detect_market_structure_shift (data : List Bar) : Option ShiftVerdict :=
  if data.length < 10 then none
  else
    some { higher_high := ((data.map Bar.high).getLastD .nan).gt
             (npMax (data.map Bar.high).dropLast),
           lower_low := ((data.map Bar.low).getLastD .nan).lt
             (npMin (data.map Bar.low).dropLast),
           trend_change := (((ma_short_of data).sub (ma_long_of data)).fabs.div
             (ma_long_of data)).gt (.fin (5 / 1000)),
           current_price := (closes_of data).getLastD .nan,
           ma_short := ma_short_of data,
           ma_long := ma_long_of data }

/-- Bar with one value for high, low and close. -/
def mkBar (q : ℚ) : Bar := ⟨.fin q, .fin q, .fin q⟩

/-- The concrete ten-close series of the spec scenario (claim C8). -/
def seriesC8 : List Bar :=
  [mkBar 100, mkBar 100, mkBar 100, mkBar 100, mkBar 100,
   mkBar 102, mkBar 102, mkBar 102, mkBar 102, mkBar 110]

/-- Ten bars with a new higher high, flat lows and closes. -/
def seriesHH : List Bar :=
  List.replicate 9 (mkBar 100) ++ [⟨.fin 200, .fin 100, .fin 100⟩]

/-- Ten bars whose last-ten close mean is zero but last-five mean is not. -/
def seriesZeroLong : List Bar :=
  [mkBar 5, mkBar 5, mkBar 5, mkBar 5, mkBar 5,
   mkBar (-5), mkBar (-5), mkBar (-5), mkBar (-5), mkBar (-5)]

/-- Ten all-NaN bars. -/
def seriesNaN : List Bar := List.replicate 10 (⟨.nan, .nan, .nan⟩ : Bar)

/-- One outbound HTTP POST to the Discord webhook. -/
structure NetworkCall where
  url : String
  content : String
deriving DecidableEq, Repr

/-- Outcome of send_discord_notification: skipped when no webhook is
configured (the early return at line 137), sent on a 2xx response,
deliveryFailed when requests raises or raise_for_status fires (caught
at line 151, logged, not retried). -/
inductive NotifyOutcome where
  | skipped
  | sent
  | deliveryFailed
deriving DecidableEq, Repr

/-- Python truthiness of the stored webhook value: None and the empty
string are falsy. -/
def truthy : Option String → Bool
  | none => false
  | some s => s ≠ ""

/-- send_discord_notification, lines 133-152.  Returns the list of
network calls performed together with the outcome.  postOk models
whether the POST and raise_for_status succeed. -/
def send_discord_notification (webhook : Option String) (symbol message : String)
    (postOk : Bool) : List NetworkCall × NotifyOutcome :=
  if truthy webhook then
    ([⟨webhook.getD "", "** " ++ symbol ++ " Market Structure Shift Detected! **" ++ message⟩],
     if postOk then .sent else .deliveryFailed)
  else ([], .skipped)

/-- Result of fetch_data for one symbol: an exception during fetch
(propagated to the caller and caught at line 165), a None result
(empty or failed download, line 91 or 101), or a data frame. -/
inductive FetchResult where
  | raises (msg : String)
  | noData
  | ok (data : List Bar)

/-- The notification guard of analyze_symbol, lines 158-161: a
notification is dispatched only when fetch produced data, detect
produced a verdict, and the trend_change flag of the verdict is true
(if mss_result and mss_result of trend_change). -/
def notification_triggered (fetched : Option (List Bar)) : Bool :=
  match fetched with
  | none => false
  | some data =>
    match detect_market_structure_shift data with
    | none => false
    | some v => v.trend_change

/-- analyze_symbol, lines 154-166, projected to the network calls it
performs.  An exception from fetch is caught by the except at line 165,
so the symbol produces no call and no error escapes.  The formatted
message content is abstracted as a parameter; no claim depends on it. -/
def analyze_symbol_calls (webhook : Option String) (postOk : Bool)
    (message symbol : String) (fetched : FetchResult) : List NetworkCall :=
  match fetched with
  | .raises _ => []
  | .noData => []
  | .ok data =>
    match detect_market_structure_shift data with
    | none => []
    | some v =>
      if v.trend_change then (send_discord_notification webhook symbol message postOk).1
      else []

/-- analyze_and_notify, lines 178-186.  ThreadPoolExecutor is created
with max_workers = min(10, number of symbols); CPython raises ValueError
when max_workers is not positive, so an empty symbol list makes the
cycle raise.  Otherwise every symbol is submitted and the map result is
never iterated, so stored exceptions are dropped and the cycle returns
the per-symbol call lists. -/
def analyze_and_notify (webhook : Option String) (postOk : String → Bool)
    (message : String) (behavior : String → FetchResult) (symbols : List String) :
    Except String (List (String × List NetworkCall)) :=
  if min 10 symbols.length = 0 then .error "max_workers must be greater than 0"
  else .ok (symbols.map fun s =>
    (s, analyze_symbol_calls webhook (postOk s) message s (behavior s)))

/-- A YAML value as used by the configuration file: string, boolean,
list of symbol strings, or mapping. -/
inductive YVal where
  | s (v : String)
  | b (v : Bool)
  | l (v : List String)
  | d (v : List (String × YVal))

/-- Mapping lookup, dict.get(key) with default None. -/
def yget (dict : List (String × YVal)) (key : String) : Option YVal :=
  (dict.find? fun kv => kv.1 = key).map fun kv => kv.2

/-- Coerce a looked-up value to a mapping, default empty. -/
def getDict : Option YVal → List (String × YVal)
  | some (.d v) => v
  | _ => []

/-- Coerce a looked-up value to a symbol list, default empty. -/
def getList : Option YVal → List String
  | some (.l v) => v
  | _ => []

/-- Coerce a looked-up value to a boolean with a default. -/
def getBool (o : Option YVal) (dflt : Bool) : Bool :=
  match o with
  | some (.b v) => v
  | _ => dflt

/-- Coerce a looked-up value to an optional string, default None. -/
def getStrOpt : Option YVal → Option String
  | some (.s v) => some v
  | _ => none

/-- Python or on optional strings: the left value when truthy, else the
right value (os.getenv DISCORD_WEBHOOK or config webhook, line 34). -/
def pyOr (a b : Option String) : Option String :=
  match a with
  | some v => if v = "" then b else some v
  | none => b

/-- The notification.discord.webhook entry of a configuration. -/
def config_webhook (config : List (String × YVal)) : Option String :=
  getStrOpt (yget (getDict (yget (getDict (yget config "notification")) "discord")) "webhook")

/-- The fields of MarketStructureTracker relevant to the claims. -/
structure Tracker where
  stocks : List String
  commodities : List String
  symbols : List String
  discord_enabled : Bool
  discord_webhook : Option String
deriving DecidableEq, Repr

/-- Construction of the tracker, lines 23-34: validate_config raises
ValueError on a falsy (empty) configuration mapping, line 51; otherwise
the symbol groups are read, deduplicated, and the webhook is taken from
the environment first, the configuration second. -/
def init_tracker (config : List (String × YVal)) (env_webhook : Option String) :
    Except String Tracker :=
  if config.isEmpty then .error "Configuration is empty or invalid"
  else
    let assets := getDict (yget config "assets")
    let stocks := getList (yget assets "stocks")
    let commodities := getList (yget assets "commodities")
    let discord := getDict (yget (getDict (yget config "notification")) "discord")
    .ok { stocks := stocks,
          commodities := commodities,
          symbols := (stocks ++ commodities).dedup,
          discord_enabled := getBool (yget discord "enabled") false,
          discord_webhook := pyOr env_webhook (config_webhook config) }

/-- Notification dispatch of a constructed tracker: it reads only the
stored webhook value. -/
def tracker_send (t : Tracker) (symbol message : String) (postOk : Bool) :
    List NetworkCall × NotifyOutcome :=
  send_discord_notification t.discord_webhook symbol message postOk

/-- Outcome of reading the configuration file, load_config lines 57-69:
the file may be absent (FileNotFoundError), unparseable (YAMLError), or
parsed to a document (None for an empty file). -/
inductive LoadOutcome where
  | fileMissing
  | yamlError
  | parsed (doc : Option (List (String × YVal)))

/-- load_config: both failure branches log an error and return the
empty mapping; a parsed None document also becomes the empty mapping
via the config-or-empty expression at line 63. -/
def load_config : LoadOutcome → List (String × YVal)
  | .fileMissing => []
  | .yamlError => []
  | .parsed none => []
  | .parsed (some d) => d

/-- Startup: load_config followed by tracker construction including
validate_config. -/
def startup (o : LoadOutcome) (env_webhook : Option String) : Except String Tracker :=
  init_tracker (load_config o) env_webhook

/-- A New York wall-clock instant.  The day field is an absolute day
index; consecutive calendar days always differ in their day-of-month,
so the day-inequality test of the source is modelled faithfully by
inequality of this index.  DST transitions are not modelled: pytz
datetime arithmetic with timedelta is plain wall-clock arithmetic. -/
structure NYTime where
  day : ℕ
  hour : ℕ
  minute : ℕ
  second : ℕ
  microsecond : ℕ
deriving DecidableEq, Repr

/-- Microseconds since the epoch of day zero. -/
def NYTime.toMics (t : NYTime) : ℕ :=
  (((t.day * 24 + t.hour) * 60 + t.minute) * 60 + t.second) * 1000000 + t.microsecond

/-- Inverse of toMics for in-range field values. -/
def NYTime.ofMics (n : ℕ) : NYTime :=
  ⟨n / 86400000000, n / 3600000000 % 24, n / 60000000 % 60, n / 1000000 % 60, n % 1000000⟩

/-- datetime plus timedelta(minutes=m). -/
def addMinutes (t : NYTime) (m : ℕ) : NYTime :=
  NYTime.ofMics (t.toMics + m * 60000000)

/-- One iteration of _wait_until_next_15_minute_interval, lines
211-220: the computed next_run_time for the current instant.  The loop
then sleeps for next_run_time minus now when that is positive and
breaks only when it is not positive. -/
def next_run_time (now : NYTime) : NYTime :=
  let next_run_minute := (now.minute / 15 + 1) * 15
  let base : NYTime := ⟨now.day, now.hour, 0, 0, 0⟩
  let nrt := addMinutes base next_run_minute
  if nrt.day ≠ now.day then addMinutes ⟨nrt.day, 0, 0, 0, 0⟩ (24 * 60)
  else nrt

/-- A two-entry configuration whose discord.enabled flag is true. -/
def cfgEnabledTrue : List (String × YVal) :=
  [("assets", .d [("stocks", .l ["GLD"])]),
   ("notification", .d [("discord", .d [("enabled", .b true), ("webhook", .s "hook")])])]

/-- The same configuration with discord.enabled set to false. -/
def cfgEnabledFalse : List (String × YVal) :=
  [("assets", .d [("stocks", .l ["GLD"])]),
   ("notification", .d [("discord", .d [("enabled", .b false), ("webhook", .s "hook")])])]

/-- The absolute value of a nonzero rational divided by IEEE positive
zero is positive infinity. -/
lemma fabs_div_zero (a : ℚ) (ha : a ≠ 0) :
    (FVal.fabs (.fin a)).div (.fin 0) = .inf true := by
  have hpos : (0 : ℚ) < if a < 0 then -a else a := by
    rcases lt_or_gt_of_ne ha with h | h
    · rw [if_pos h]; linarith
    · rw [if_neg (not_lt.mpr (le_of_lt h))]; exact h
  show (if (0 : ℚ) = 0 then
      (if (if a < 0 then -a else a) = 0 then FVal.nan
       else FVal.inf (decide (0 < if a < 0 then -a else a)))
    else FVal.fin ((if a < 0 then -a else a) / 0)) = FVal.inf true
  rw [if_pos rfl, if_neg (ne_of_gt hpos), decide_eq_true hpos]

/-- Claim C9: for every series of fewer than 10 bars, the detector
returns none, the expected warm-up outcome rather than an error. -/
theorem c9_short_series_returns_none (data : List Bar) (h : data.length < 10) :
    detect_market_structure_shift data = none := by
  unfold detect_market_structure_shift
  rw [if_pos h]

/-- Claim C9 witness at the empty series. -/
theorem c9_witness : detect_market_structure_shift [] = none :=
  c9_short_series_returns_none [] (by decide)

/-- Claim C2 counterexample: a ten-bar series whose high, low and close
values are all NaN makes the detector return a verdict with every flag
false, not a detection failure; the claim asserts the opposite. -/
theorem c2_counterexample :
    detect_market_structure_shift seriesNaN =
      some ⟨false, false, false, .nan, .nan, .nan⟩ := by
  norm_num [detect_market_structure_shift, ma_short_of, ma_long_of, closes_of,
    npMean, fsum, npMax, npMin, seriesNaN, FVal.gt, FVal.lt, FVal.sub,
    FVal.div, FVal.fabs, FVal.add, FVal.fmax, FVal.fmin, List.foldl, List.replicate]

/-- Claim C2 amended: every series of length at least 10, including one
with NaN values, yields a verdict and never a detection failure; NaN
poisons the comparisons to false, as the counterexample shows. -/
theorem c2_amended_detect_total (data : List Bar) (h : 10 ≤ data.length) :
    (detect_market_structure_shift data).isSome = true := by
  unfold detect_market_structure_shift
  rw [if_neg (by omega)]
  rfl

/-- Claim C2 amended witness at the all-NaN series. -/
theorem c2_amended_witness : (detect_market_structure_shift seriesNaN).isSome = true :=
  c2_amended_detect_total seriesNaN (by decide)

/-- Claim C8 counterexample: on the spec scenario series the long
moving average returned by the detector is 509 fifths, that is 101.8,
not the 101.0 the claim states. -/
theorem c8_counterexample :
    (detect_market_structure_shift seriesC8).map ShiftVerdict.ma_long ≠
      some (FVal.fin 101) := by
  norm_num [detect_market_structure_shift, ma_short_of, ma_long_of, closes_of,
    npMean, fsum, npMax, npMin, seriesC8, mkBar, FVal.gt, FVal.lt, FVal.sub,
    FVal.div, FVal.fabs, FVal.add, FVal.fmax, FVal.fmin, List.foldl]

/-- Claim C8 amended: on the series with closes 100 (five times), 102
(four times), 110, the detector returns shortMA 103.6 (518 fifths),
longMA 101.8 (509 fifths), trendChange true (relative divergence 9 over
509, about 1.77 percent, above the 0.5 percent threshold), a higher
high and a current price of 110. -/
theorem c8_amended_verdict :
    detect_market_structure_shift seriesC8 =
      some ⟨true, false, true, .fin 110, .fin (518 / 5), .fin (509 / 5)⟩ := by
  norm_num [detect_market_structure_shift, ma_short_of, ma_long_of, closes_of,
    npMean, fsum, npMax, npMin, seriesC8, mkBar, FVal.gt, FVal.lt, FVal.sub,
    FVal.div, FVal.fabs, FVal.add, FVal.fmax, FVal.fmin, List.foldl]

/-- Claim C5 counterexample: a ten-bar series whose last ten closes
average to zero while the last five average to minus five produces a
verdict with trendChange true, not false as the claim states: the
divergence divides by zero to positive infinity, which exceeds the
threshold. -/
theorem c5_counterexample :
    detect_market_structure_shift seriesZeroLong =
      some ⟨false, false, true, .fin (-5), .fin (-5), .fin 0⟩ := by
  norm_num [detect_market_structure_shift, ma_short_of, ma_long_of, closes_of,
    npMean, fsum, npMax, npMin, seriesZeroLong, mkBar, FVal.gt, FVal.lt, FVal.sub,
    FVal.div, FVal.fabs, FVal.add, FVal.fmax, FVal.fmin, List.foldl]

/-- Claim C5 amended: when the long moving average is zero the detector
does not fault, and whenever the short moving average is a nonzero
finite value the trendChange flag resolves to true, not false. -/
theorem c5_amended_zero_long_ma (data : List Bar) (q : ℚ) (hlen : 10 ≤ data.length)
    (hlong : ma_long_of data = .fin 0) (hshort : ma_short_of data = .fin q)
    (hq : q ≠ 0) :
    ∃ v, detect_market_structure_shift data = some v ∧ v.trend_change = true := by
  unfold detect_market_structure_shift
  rw [if_neg (by omega)]
  refine ⟨_, rfl, ?_⟩
  show (((ma_short_of data).sub (ma_long_of data)).fabs.div
    (ma_long_of data)).gt (.fin (5 / 1000)) = true
  rw [hlong, hshort]
  have hsub : (FVal.fin q).sub (.fin 0) = .fin q := by simp [FVal.sub]
  rw [hsub, fabs_div_zero q hq]
  rfl

/-- Claim C5 amended witness at the zero-long-mean series. -/
theorem c5_amended_witness :
    ∃ v, detect_market_structure_shift seriesZeroLong = some v ∧
      v.trend_change = true :=
  c5_amended_zero_long_ma seriesZeroLong (-5) (by decide)
    (by norm_num [ma_long_of, closes_of, npMean, fsum, seriesZeroLong, mkBar,
      FVal.add, FVal.div, List.foldl])
    (by norm_num [ma_short_of, closes_of, npMean, fsum, seriesZeroLong, mkBar,
      FVal.add, FVal.div, List.foldl])
    (by norm_num)

/-- Claim C1 counterexample: a series whose verdict has higherHigh true
but trendChange false produces no notification, although the claim
requires one whenever any flag is true. -/
theorem c1_counterexample :
    detect_market_structure_shift seriesHH =
      some ⟨true, false, false, .fin 100, .fin 100, .fin 100⟩ ∧
    notification_triggered (some seriesHH) = false := by
  have h : detect_market_structure_shift seriesHH =
      some ⟨true, false, false, .fin 100, .fin 100, .fin 100⟩ := by
    norm_num [detect_market_structure_shift, ma_short_of, ma_long_of, closes_of,
      npMean, fsum, npMax, npMin, seriesHH, mkBar, FVal.gt, FVal.lt, FVal.sub,
      FVal.div, FVal.fabs, FVal.add, FVal.fmax, FVal.fmin, List.foldl, List.replicate]
  exact ⟨h, by simp [notification_triggered, h]⟩

/-- Claim C1 amended: a notification is produced for an instrument
exactly when its detection verdict exists and has trendChange true;
higherHigh or lowerLow alone do not trigger one, a fetched series for
which the detector returns no verdict produces none, and an absent
fetch result produces none. -/
theorem c1_amended_notify_iff_trend_change :
    (∀ data v, detect_market_structure_shift data = some v →
      notification_triggered (some data) = v.trend_change) ∧
    (∀ data, detect_market_structure_shift data = none →
      notification_triggered (some data) = false) ∧
    notification_triggered none = false := by
  refine ⟨?_, ?_, rfl⟩
  · intro data v h
    simp [notification_triggered, h]
  · intro data h
    simp [notification_triggered, h]

/-- Claim C1 amended witness: at the trend-change series of the spec
scenario a notification is produced, and at the empty series, where the
detector yields no verdict, none is produced. -/
theorem c1_amended_witness :
    notification_triggered (some seriesC8) = true ∧
    notification_triggered (some []) = false :=
  ⟨(c1_amended_notify_iff_trend_change.1 seriesC8
      ⟨true, false, true, .fin 110, .fin (518 / 5), .fin (509 / 5)⟩
      (by norm_num [detect_market_structure_shift, ma_short_of, ma_long_of, closes_of,
        npMean, fsum, npMax, npMin, seriesC8, mkBar, FVal.gt, FVal.lt, FVal.sub,
        FVal.div, FVal.fabs, FVal.add, FVal.fmax, FVal.fmin, List.foldl])).trans rfl,
   c1_amended_notify_iff_trend_change.2.1 [] rfl⟩

/-- Claim C3 counterexample: with the configuration file missing,
startup does not succeed with an empty configuration; it raises
ValueError from validate_config. -/
theorem c3_counterexample :
    startup .fileMissing none = .error "Configuration is empty or invalid" := rfl

/-- Claim C3 amended: a missing or unparseable configuration file makes
load_config return an empty configuration without raising, but startup
then fails validation with ValueError instead of degrading to zero
instruments. -/
theorem c3_amended_startup_raises :
    load_config .fileMissing = [] ∧ load_config .yamlError = [] ∧
    ∀ env, startup .fileMissing env = .error "Configuration is empty or invalid" ∧
      startup .yamlError env = .error "Configuration is empty or invalid" :=
  ⟨rfl, rfl, fun _ => ⟨rfl, rfl⟩⟩

/-- Claim C4: at New York wall-clock 23:50 on day 5 the gate computes a
wake time of midnight on day 7, skipping the true next boundary of
midnight on day 6 by a full day; and at exactly the boundary 00:00 of
day 7 it computes 00:15 of day 7, a strictly future instant, so the
sleep duration is always positive, the break in the waiting loop is
unreachable, and periodic cycles never start. -/
theorem c4_gate_wake_time :
    next_run_time ⟨5, 23, 50, 0, 0⟩ = ⟨7, 0, 0, 0, 0⟩ ∧
    next_run_time ⟨7, 0, 0, 0, 0⟩ = ⟨7, 0, 15, 0, 0⟩ := by decide

/-- Claim C6 counterexample: on an empty instrument set the cycle does
not complete; the thread-pool construction receives max_workers zero
and raises ValueError. -/
theorem c6_counterexample :
    analyze_and_notify none (fun _ => true) "m" (fun _ => .noData) [] =
      .error "max_workers must be greater than 0" := rfl

/-- Claim C6 amended: for every nonempty instrument set the cycle
completes without raising, processes every instrument, and a change in
the fetch behaviour of one instrument, including raising an exception,
leaves the result of every other instrument unchanged. -/
theorem c6_amended_isolation (webhook : Option String) (postOk : String → Bool)
    (message : String) (b bBad : String → FetchResult) (symbols : List String)
    (s0 : String) (hne : symbols ≠ [])
    (hagree : ∀ s, s ≠ s0 → bBad s = b s) :
    ∃ rs, analyze_and_notify webhook postOk message bBad symbols = .ok rs ∧
      rs.length = symbols.length ∧
      ∀ p ∈ rs, p.1 ≠ s0 →
        p.2 = analyze_symbol_calls webhook (postOk p.1) message p.1 (b p.1) := by
  unfold analyze_and_notify
  rw [if_neg (by simp [Nat.min_eq_zero_iff, List.length_eq_zero, hne])]
  refine ⟨_, rfl, List.length_map _ _, ?_⟩
  intro p hp hps
  rcases List.mem_map.mp hp with ⟨s, _, rfl⟩
  exact congrArg (analyze_symbol_calls webhook (postOk s) message s) (hagree s hps)

/-- Claim C6 amended witness: two instruments, the first of which
raises during fetch, still yield a completed cycle whose second result
is that of the unchanged behaviour. -/
theorem c6_amended_witness :
    ∃ rs, analyze_and_notify none (fun _ => true) "m"
        (fun s => if s = "AAA" then FetchResult.raises "boom" else FetchResult.noData)
        ["AAA", "BBB"] = .ok rs ∧
      rs.length = (["AAA", "BBB"] : List String).length ∧
      ∀ p ∈ rs, p.1 ≠ "AAA" →
        p.2 = analyze_symbol_calls none true "m" p.1 FetchResult.noData :=
  c6_amended_isolation none (fun _ => true) "m" (fun _ => .noData)
    (fun s => if s = "AAA" then .raises "boom" else .noData) ["AAA", "BBB"] "AAA"
    (List.cons_ne_nil _ _) (fun _ hs => if_neg hs)

/-- Claim C7: each invocation of the notifier performs exactly one
outbound HTTP POST when a webhook target is configured (a non-empty
value) and zero network calls otherwise, and the unconfigured case
returns skipped, not a delivery error. -/
theorem c7_notify_call_count (webhook : Option String) (symbol message : String)
    (postOk : Bool) :
    ((send_discord_notification webhook symbol message postOk).1.length =
      if truthy webhook then 1 else 0) ∧
    (truthy webhook = false →
      send_discord_notification webhook symbol message postOk = ([], .skipped)) := by
  by_cases h : truthy webhook <;> simp [send_discord_notification, h]

/-- Claim C7 witness at an absent webhook. -/
theorem c7_witness :
    ((send_discord_notification none "AAA" "m" true).1.length =
      if truthy none then 1 else 0) ∧
    (truthy none = false →
      send_discord_notification none "AAA" "m" true = ([], .skipped)) :=
  c7_notify_call_count none "AAA" "m" true

/-- Claim C10: notification dispatch of a constructed tracker depends
only on the webhook entry of the configuration and the environment:
two startups over configurations with the same webhook entry, in
particular two differing only in the discord enabled flag, dispatch
identically. -/
theorem c10_enabled_flag_no_effect (cfg1 cfg2 : List (String × YVal))
    (env : Option String) (t1 t2 : Tracker) (symbol message : String) (postOk : Bool)
    (h1 : init_tracker cfg1 env = .ok t1) (h2 : init_tracker cfg2 env = .ok t2)
    (hw : config_webhook cfg1 = config_webhook cfg2) :
    tracker_send t1 symbol message postOk = tracker_send t2 symbol message postOk := by
  have e1 : t1.discord_webhook = pyOr env (config_webhook cfg1) := by
    unfold init_tracker at h1
    by_cases hc : cfg1.isEmpty
    · rw [if_pos hc] at h1; exact absurd h1 (by simp)
    · rw [if_neg hc] at h1
      simp only [Except.ok.injEq] at h1
      rw [← h1]
  have e2 : t2.discord_webhook = pyOr env (config_webhook cfg2) := by
    unfold init_tracker at h2
    by_cases hc : cfg2.isEmpty
    · rw [if_pos hc] at h2; exact absurd h2 (by simp)
    · rw [if_neg hc] at h2
      simp only [Except.ok.injEq] at h2
      rw [← h2]
  unfold tracker_send
  rw [e1, e2, hw]

/-- Claim C10 witness: the two concrete configurations differing only
in the enabled flag dispatch identically. -/
theorem c10_witness :
    tracker_send ⟨["GLD"], [], ["GLD"], true, some "hook"⟩ "XAU" "m" true =
      tracker_send ⟨["GLD"], [], ["GLD"], false, some "hook"⟩ "XAU" "m" true :=
  c10_enabled_flag_no_effect cfgEnabledTrue cfgEnabledFalse none
    ⟨["GLD"], [], ["GLD"], true, some "hook"⟩
    ⟨["GLD"], [], ["GLD"], false, some "hook"⟩ "XAU" "m" true rfl rfl rfl

end GoldMSS
